import Mathlib

/-!
A shallow embedding of the manim-service job pipeline (src/main.py).

Modelling conventions:
* Strings are Lean `String`s; substring tests (Python's `in`) are implemented
  character-by-character on `String.data`.
* The filesystem is the list of paths of the files that exist; a directory
  exists when some file lies under it (the renderer only creates directories
  by writing files into them).
* The two background routines `render_video` and `generate_manim_video` are
  embedded as pure functions from an environment (the outcome of the child
  process and the filesystem contents) to a result record holding the final
  job, the filesystem after the run, and bookkeeping flags.
* Concurrency: the service runs on a single asyncio event loop.  A block of
  statements containing no `await` is atomic with respect to every other
  coroutine (request handlers included), so the job states any observer can
  see are exactly the states at suspension points.  `render_video` suspends
  only while awaiting the child process (after `progress = 40`);
  `generate_manim_video` contains no `await` at all (its `subprocess.run`
  blocks the loop).  The `trace` field records the observable states in
  order: the freshly created job (observable between the HTTP response and
  the start of the background task), the state during the child-process
  wait when one is reached, and the final state.
-/

deriving instance DecidableEq for Except

namespace ManimService

/-- `strStarts needle hay`: `needle` is a prefix of `hay` (char lists). -/
def strStarts (needle hay : List Char) : Bool :=
  match needle, hay with
  | [], _ => true
  | _ :: _, [] => false
  | a :: as, b :: bs => a == b && strStarts as bs

/-- `strHas needle hay`: `needle` occurs as a contiguous substring of `hay`. -/
def strHas (needle hay : List Char) : Bool :=
  match hay with
  | [] => strStarts needle []
  | _ :: t => strStarts needle hay || strHas needle t

/-- Python's `needle in hay` on strings. -/
def containsStr (hay needle : String) : Bool := strHas needle.data hay.data

/-- `p` starts with `s` (Python `str.startswith`, used for path containment). -/
def startsStr (p s : String) : Bool := strStarts s.data p.data

/-- `p` ends with `s` (used for extension matching). -/
def endsStr (p s : String) : Bool := strStarts s.data.reverse p.data.reverse

/-- The `VideoJob` record (class VideoJob, src/main.py lines 53-60).
`created_at` carries no information used by any claim and is omitted. -/
structure Job where
  job_id : String
  status : String
  progress : Nat
  video_path : Option String
  error : Option String
deriving DecidableEq, Repr

/-- `VideoJob.__init__`: a fresh job is pending with progress 0. -/
def newJob (id : String) : Job :=
  { job_id := id, status := "pending", progress := 0, video_path := none, error := none }

/-- The terminal statuses of the state machine. -/
def isTerminal (s : String) : Bool := s == "completed" || s == "failed"

/-- src/main.py line 69. -/
def forbidden_imports : List String := ["os", "sys", "subprocess", "eval", "exec", "__import__"]

/-- src/main.py line 70. -/
def forbidden_keywords : List String := ["open(", "file(", "input(", "raw_input("]

/-- `sanitize_code` (src/main.py lines 67-80): raise `ValueError` on the first
denylisted token, in list order, otherwise return the script unchanged.
`Except.error` carries `str(e)` of the raised `ValueError`. -/
def sanitize_code (code : String) : Except String String :=
  match forbidden_imports.find?
      (fun f => containsStr code ("import " ++ f) || containsStr code ("from " ++ f)) with
  | some f => Except.error ("Forbidden import: " ++ f)
  | none =>
    match forbidden_keywords.find? (fun k => containsStr code k) with
    | some k => Except.error ("Forbidden keyword: " ++ k)
    | none => Except.ok code

/-- `TEMP_DIR = Path(tempfile.gettempdir()) / "manim_videos"` with the usual
`/tmp` temp dir (src/main.py line 64). -/
def TEMP_DIR : String := "/tmp/manim_videos"

/-- A filesystem: the list of existing file paths, in directory-scan order
(`glob`/`rglob` return files in this order). -/
abbrev FS := List String

/-- `p` lies (at any depth) under directory `d`. -/
def isUnder (d p : String) : Bool := startsStr p (d ++ "/")

/-- A directory exists when some file lies under it. -/
def dirExists (fs : FS) (d : String) : Bool := fs.any (fun p => isUnder d p)

/-- `p` is a direct child of directory `d` (no further `/` after `d ++ "/"`). -/
def directChild (d p : String) : Bool :=
  isUnder d p && !(List.contains (p.data.drop (d.data.length + 1)) '/')

/-- The basename of a path (the segment after the last `/`). -/
def baseName (p : String) : String :=
  String.mk ((p.data.reverse.takeWhile (fun c => c ≠ '/')).reverse)

/-- `list(media_dir.glob("*.mp4"))`: the direct children of `d` with extension
`.mp4`, in filesystem order. -/
def globMp4 (fs : FS) (d : String) : List String :=
  fs.filter (fun p => directChild d p && endsStr p ".mp4")

/-- `Path.unlink` / `shutil.move` source removal: drop one path. -/
def unlinkFile (fs : FS) (p : String) : FS := fs.filter (fun q => q != p)

/-- Every path under the intermediate media tree `TEMP_DIR/media`. -/
def underMedia (p : String) : Bool := isUnder (TEMP_DIR ++ "/media") p

/-- `shutil.rmtree(TEMP_DIR / "media", ignore_errors=True)`: remove the whole
media tree; removing nothing when nothing is there (idempotent by construction,
as `rmtree` with `ignore_errors` never raises). -/
def rmtreeMedia (fs : FS) : FS := fs.filter (fun p => !underMedia p)

/-- The ordered candidate output directories probed by `render_video`
(src/main.py lines 184-189): full job id at three resolutions, then the
8-character-prefix variant at 480p15. -/
def possible_dirs (job_id : String) : List String :=
  [ TEMP_DIR ++ "/media/videos/" ++ job_id ++ "/480p15",
    TEMP_DIR ++ "/media/videos/" ++ job_id ++ "/720p30",
    TEMP_DIR ++ "/media/videos/" ++ job_id ++ "/1080p60",
    TEMP_DIR ++ "/media/videos/" ++ job_id.take 8 ++ "/480p15" ]

/-- The candidate-probing loop of `render_video` (src/main.py lines 191-197):
for each candidate in order, if the directory exists glob `*.mp4` in it; stop
at the first non-empty glob, else continue; `[]` when no candidate yields a
match (an existing candidate with no `.mp4` files leaves `video_files` empty
and the loop moves on). -/
def findVideoFiles (fs : FS) : List String → List String
  | [] => []
  | d :: rest =>
    if dirExists fs d then
      let g := globMp4 fs d
      if g.isEmpty then findVideoFiles fs rest else g
    else findVideoFiles fs rest

/-- `quality_map` of `render_video` (src/main.py lines 140-146), with
`.get(output_quality, "-qm")`. -/
def quality_map : List (String × String) := [("low", "-ql"), ("medium", "-qm"), ("high", "-qh")]

/-- `quality_map.get(output_quality, "-qm")`. -/
def qualityFlag (q : String) : String :=
  (((quality_map.find? (fun e => e.1 == q)).map (fun e => e.2)).getD "-qm")

/-- Environment of one `render_video` run: the filesystem before the run, the
files the child renderer writes under the working directory, and the child
process's wall-clock duration (seconds), exit code and decoded stderr. -/
structure RenderEnv where
  fs0 : FS
  rendererFiles : FS
  duration : Nat
  returncode : Int
  stderr : String

/-- Result of one `render_video` run.  `spawned`: the routine reached the
`asyncio.create_subprocess_exec` invocation with the script.  `waitSeconds`:
how long the routine waited on the child (`asyncio.wait_for` returns control
at the 300 s bound).  `cleanupRan`: the `finally` block ran to completion
(unlink of the scratch script, then removal of the media tree).
`cleanupRaised`: the `finally` block itself raised. -/
structure RenderResult where
  job : Job
  spawned : Bool
  cmd : List String
  waitSeconds : Nat
  cleanupRan : Bool
  cleanupRaised : Bool
  fsAfter : FS
  trace : List Job
deriving DecidableEq, Repr

/-- The fixed render timeout, seconds (src/main.py line 176). -/
def renderTimeout : Nat := 300

/-- `render_video` (src/main.py lines 122-234), embedded over `RenderEnv`.

Branches, in source order:
* sanitization rejects: the `ValueError` is caught by the outer `except`,
  which sets `status="failed"`, `error=str(e)`.  The `finally` block then
  evaluates `temp_py.exists()`, but `temp_py` is assigned only *after* the
  `sanitize_code` call (line 135 vs line 131), so the local is unbound and
  the `finally` block raises `UnboundLocalError`: neither the unlink nor the
  media-tree removal runs, and the filesystem is left untouched.
* timeout: `asyncio.wait_for` raises after 300 s when the child takes longer;
  the job is marked failed with the timeout message, progress stays at 40,
  and cleanup runs.
* non-zero exit: failure with `"Manim render failed: " ++ stderr`.
* no candidate directory yields a match: the fallback `rglob` at lines
  201-204 only *logs* the files it finds; the routine then raises
  `"No video file generated"` regardless, and the job fails.
* success: the first match is moved to `TEMP_DIR/{job_id}_final.mp4`,
  `video_path`/progress/status are set, cleanup runs. -/
def render_video (env : RenderEnv) (job_id : String) (code : String) : RenderResult :=
  let j0 : Job := { newJob job_id with status := "rendering", progress := 10 }
  let temp_py := TEMP_DIR ++ "/" ++ job_id ++ ".py"
  match sanitize_code code with
  | Except.error msg =>
    let jFail := { j0 with status := "failed", error := some msg }
    { job := jFail, spawned := false, cmd := [], waitSeconds := 0,
      cleanupRan := false, cleanupRaised := true,
      fsAfter := env.fs0, trace := [newJob job_id, jFail] }
  | Except.ok _safe_code =>
    let cmd := ["python3", "-m", "manim", qualityFlag "medium", "--disable_caching",
                "--format", "mp4", temp_py, "EducationalVideo"]
    let fs1 := env.fs0 ++ [temp_py] ++ env.rendererFiles
    let j40 := { j0 with progress := 40 }
    if renderTimeout < env.duration then
      let jFail := { j40 with status := "failed"
                              error := some "Rendering timeout (5 minutes exceeded)" }
      { job := jFail, spawned := true, cmd := cmd, waitSeconds := renderTimeout,
        cleanupRan := true, cleanupRaised := false,
        fsAfter := rmtreeMedia (unlinkFile fs1 temp_py),
        trace := [newJob job_id, j40, jFail] }
    else
      let j80 := { j40 with progress := 80 }
      if env.returncode != 0 then
        let jFail := { j80 with status := "failed"
                                error := some ("Manim render failed: " ++ env.stderr) }
        { job := jFail, spawned := true, cmd := cmd, waitSeconds := env.duration,
          cleanupRan := true, cleanupRaised := false,
          fsAfter := rmtreeMedia (unlinkFile fs1 temp_py),
          trace := [newJob job_id, j40, jFail] }
      else
        match findVideoFiles fs1 (possible_dirs job_id) with
        | [] =>
          let jFail := { j80 with status := "failed"
                                  error := some "No video file generated" }
          { job := jFail, spawned := true, cmd := cmd, waitSeconds := env.duration,
            cleanupRan := true, cleanupRaised := false,
            fsAfter := rmtreeMedia (unlinkFile fs1 temp_py),
            trace := [newJob job_id, j40, jFail] }
        | v :: _ =>
          let final_path := TEMP_DIR ++ "/" ++ job_id ++ "_final.mp4"
          let fs2 := unlinkFile fs1 v ++ [final_path]
          let jDone := { j80 with video_path := some final_path
                                  progress := 100
                                  status := "completed" }
          { job := jDone, spawned := true, cmd := cmd, waitSeconds := env.duration,
            cleanupRan := true, cleanupRaised := false,
            fsAfter := rmtreeMedia (unlinkFile fs2 temp_py),
            trace := [newJob job_id, j40, jDone] }

/-- `quality_map` of `generate_manim_video` (src/main.py lines 423-429). -/
def quality_map_gen : List (String × String) :=
  [("low_quality", "-ql"), ("medium_quality", "-qm"),
   ("high_quality", "-qh"), ("production_quality", "-qp")]

/-- `quality_map.get(quality, "-qm")` of `generate_manim_video`. -/
def qualityFlagGen (q : String) : String :=
  (((quality_map_gen.find? (fun e => e.1 == q)).map (fun e => e.2)).getD "-qm")

/-- Environment of one `generate_manim_video` run.  `manimPathExists` models
whether the hardcoded install path exists (it only selects the command's
executable).  The other fields are as in `RenderEnv`; `duration` is how long
`subprocess.run` blocks, which the routine never bounds. -/
structure GenEnv where
  fs0 : FS
  rendererFiles : FS
  manimPathExists : Bool
  duration : Nat
  returncode : Int
  stderr : String

/-- Result of one `generate_manim_video` run.  Fields as in `RenderResult`;
there is no `finally` block in this routine, so no cleanup fields: the
filesystem after the run is the filesystem during it. -/
structure GenResult where
  job : Job
  spawned : Bool
  cmd : List String
  waitSeconds : Nat
  fsAfter : FS
  trace : List Job
deriving DecidableEq, Repr

/-- The scratch script path written by the `/create-video` endpoint
(src/main.py line 399). -/
def scriptPath (title job_id : String) : String :=
  TEMP_DIR ++ "/" ++ title ++ "_" ++ job_id ++ ".py"

/-- `generate_manim_video` (src/main.py lines 417-472), embedded over `GenEnv`.

The routine never calls `sanitize_code`: the script written by the endpoint
reaches `subprocess.run` unconditionally (`spawned := true` in every branch).
`subprocess.run` is called without a `timeout=` argument, so the routine
waits the child's full duration.  On exit 0 it searches
`TEMP_DIR.rglob(f"**/SolutionVideo.{format}")` and, when that is empty,
falls back to `TEMP_DIR.rglob(f"**/*.{format}")`; the first hit becomes
`video_path` *in place* (no move), else the routine fails.  There is no
`finally` cleanup: the scratch script and the media tree stay on disk. -/
def generate_manim_video (env : GenEnv) (job_id title quality fmt : String) : GenResult :=
  let script_path := scriptPath title job_id
  let j0 : Job := { newJob job_id with status := "processing" }
  let manim_path := if env.manimPathExists then "/Users/ruby/Library/Python/3.9/bin/manim"
                    else "manim"
  let cmd := [manim_path, qualityFlagGen quality, "--format=" ++ fmt, "--disable_caching",
              script_path, "SolutionVideo"]
  let fs1 := env.fs0 ++ [script_path] ++ env.rendererFiles
  if env.returncode != 0 then
    let jFail := { j0 with status := "failed"
                           error := some ("Manim error: " ++ env.stderr) }
    { job := jFail, spawned := true, cmd := cmd, waitSeconds := env.duration,
      fsAfter := fs1, trace := [newJob job_id, jFail] }
  else
    let primary := fs1.filter (fun p => isUnder TEMP_DIR p && baseName p == "SolutionVideo." ++ fmt)
    let files := if primary.isEmpty
                 then fs1.filter (fun p => isUnder TEMP_DIR p && endsStr p ("." ++ fmt))
                 else primary
    match files with
    | [] =>
      let jFail := { j0 with status := "failed"
                             error := some "Video file not found after generation" }
      { job := jFail, spawned := true, cmd := cmd, waitSeconds := env.duration,
        fsAfter := fs1, trace := [newJob job_id, jFail] }
    | v :: _ =>
      let jDone := { j0 with video_path := some v
                             status := "completed"
                             progress := 100 }
      { job := jDone, spawned := true, cmd := cmd, waitSeconds := env.duration,
        fsAfter := fs1, trace := [newJob job_id, jDone] }

/-! ## Job registry and HTTP read/delete endpoints -/

/-- The in-memory `jobs` dict, as an association list in insertion order. -/
abbrev Registry := List (String × Job)

/-- `jobs[job_id]` lookup / `job_id in jobs` membership (keys are unique, so
first-match association-list lookup is dict lookup). -/
def lookupJob : Registry → String → Option Job
  | [], _ => none
  | e :: t, id => if e.1 == id then some e.2 else lookupJob t id

/-- Overwrite the record of job `id` (the background routines mutate only
their own job's record). -/
def setJob (r : Registry) (id : String) (j : Job) : Registry :=
  r.map (fun e => if e.1 == id then (e.1, j) else e)

/-- Response of `GET /api/video/status/{job_id}` (src/main.py lines 270-282). -/
structure StatusResponse where
  job_id : String
  status : String
  progress : Nat
  error : Option String
deriving DecidableEq, Repr

/-- `get_video_status` (src/main.py lines 270-282): 404 for unknown ids,
otherwise the job's current snapshot. -/
def get_video_status (r : Registry) (id : String) : Except Nat StatusResponse :=
  match lookupJob r id with
  | none => Except.error 404
  | some j => Except.ok { job_id := id, status := j.status, progress := j.progress, error := j.error }

/-- Response of `GET /job/{job_id}` (src/main.py lines 335-350). -/
structure JobResponse where
  job_id : String
  status : String
  progress : Nat
  video_path : Option String
  error : Option String
deriving DecidableEq, Repr

/-- `get_job_status` (src/main.py lines 335-350): 404 for unknown ids,
otherwise the full record. -/
def get_job_status (r : Registry) (id : String) : Except Nat JobResponse :=
  match lookupJob r id with
  | none => Except.error 404
  | some j =>
    Except.ok { job_id := id, status := j.status, progress := j.progress,
                video_path := j.video_path, error := j.error }

/-- `download_video` (src/main.py lines 284-302): 404 unknown id, 400 when not
completed, 404 when the backing file is missing, else the file path served. -/
def download_video (r : Registry) (fs : FS) (id : String) : Except Nat String :=
  match lookupJob r id with
  | none => Except.error 404
  | some j =>
    if j.status != "completed" then Except.error 400
    else
      match j.video_path with
      | none => Except.error 404
      | some p => if fs.contains p then Except.ok p else Except.error 404

/-- `stream_video` (src/main.py lines 352-370): same preconditions as
download, the body is streamed from the same path. -/
def stream_video (r : Registry) (fs : FS) (id : String) : Except Nat String :=
  match lookupJob r id with
  | none => Except.error 404
  | some j =>
    if j.status != "completed" then Except.error 400
    else
      match j.video_path with
      | none => Except.error 404
      | some p => if fs.contains p then Except.ok p else Except.error 404

/-- Successful bodies of `GET /videos/{job_id}`. -/
inductive GetVideoResponse where
  | processingMsg : GetVideoResponse
  | fileResp : String → GetVideoResponse
deriving DecidableEq, Repr

/-- `get_video` (src/main.py lines 304-333): 404 unknown id, a processing
message while status is "processing", 500 when failed, 400 otherwise
non-completed, then the file (404 when its backing file is gone). -/
def get_video (r : Registry) (fs : FS) (id : String) : Except Nat GetVideoResponse :=
  match lookupJob r id with
  | none => Except.error 404
  | some j =>
    if j.status == "processing" then Except.ok GetVideoResponse.processingMsg
    else if j.status == "failed" then Except.error 500
    else if j.status != "completed" then Except.error 400
    else
      match j.video_path with
      | none => Except.error 404
      | some p => if fs.contains p then Except.ok (GetVideoResponse.fileResp p) else Except.error 404

/-- `delete_video` (src/main.py lines 372-387): 404 for unknown ids (registry
and filesystem untouched); otherwise unlink the backing file when present and
drop the record. -/
def delete_video (r : Registry) (fs : FS) (id : String) :
    Except Nat String × Registry × FS :=
  match lookupJob r id with
  | none => (Except.error 404, r, fs)
  | some j =>
    let fs' := match j.video_path with
      | some p => if fs.contains p then unlinkFile fs p else fs
      | none => fs
    (Except.ok "Video deleted successfully", r.filter (fun e => !(e.1 == id)), fs')

/-! ## The two `/health` routes -/

/-- A `/health` JSON body; fields absent from a handler's dict are `none`. -/
structure HealthResponse where
  status : String
  service : Option String := none
  version : Option String := none
  manim_installed : Option Bool := none
  manim_version : Option String := none
  temp_dir : Option String := none
  active_jobs : Option Nat := none
deriving DecidableEq, Repr

/-- Environment of the second health handler: whether the hardcoded binary
path exists, whether running `--version` raises (e.g. executable missing),
and the version subprocess's exit code and stripped stdout. -/
structure HealthEnv where
  manimPathExists : Bool
  versionRaises : Bool
  versionReturncode : Int
  versionStdout : String

/-- The first `health_check` (src/main.py lines 236-239): a constant body
with no renderer probing at all. -/
def health_check_v1 : HealthResponse :=
  { status := "healthy", service := some "manim-video-generator", version := some "1.0.0" }

/-- `manim_installed` as computed by the second handler: the `--version`
subprocess ran without raising and exited 0. -/
def manimInstalled (env : HealthEnv) : Bool :=
  !env.versionRaises && env.versionReturncode == 0

/-- The second `health_check` (src/main.py lines 474-496): probes the
renderer, reports degraded when it is unavailable, and includes the temp dir
and the number of registered jobs. -/
def health_check_v2 (env : HealthEnv) (r : Registry) : HealthResponse :=
  let installed := manimInstalled env
  { status := if installed then "healthy" else "degraded",
    manim_installed := some installed,
    manim_version := some (if installed then env.versionStdout else "Not installed"),
    temp_dir := some TEMP_DIR,
    active_jobs := some r.length }

/-- The route table entries for path `/health`, in registration order: the
decorator at line 236 registers the first handler, the one at line 474 the
second.  Starlette resolves a request against the route list in registration
order and serves the first path match, so the handler actually serving
`GET /health` is the first entry. -/
def health_routes : List (String × (HealthEnv → Registry → HealthResponse)) :=
  [("/health", fun _ _ => health_check_v1), ("/health", health_check_v2)]

/-- Dispatch of `GET /health`: first route whose path matches. -/
def serveHealth (env : HealthEnv) (r : Registry) : Option HealthResponse :=
  (health_routes.find? (fun e => e.1 == "/health")).map (fun e => e.2 env r)

/-! ## Creation endpoints (thin wrappers scheduling the background routines) -/

/-- `POST /api/video/create` with `manimCode` provided (src/main.py lines
241-268): register a fresh pending job, schedule `render_video` with the
submitted code, and (once the background task has run) store its job record. -/
def create_video_api (env : RenderEnv) (r : Registry) (job_id manimCode : String) :
    Registry × RenderResult :=
  let r1 := r ++ [(job_id, newJob job_id)]
  let res := render_video env job_id manimCode
  (setJob r1 job_id res.job, res)

/-- `POST /create-video` (src/main.py lines 389-415): register a fresh pending
job, write the script to the scratch path, schedule `generate_manim_video`,
and (once the background task has run) store its job record.  No validation
of the script happens on this path. -/
def create_video_script (env : GenEnv) (r : Registry)
    (job_id _script title quality fmt : String) : Registry × GenResult :=
  let r1 := r ++ [(job_id, newJob job_id)]
  let res := generate_manim_video env job_id title quality fmt
  (setJob r1 job_id res.job, res)

/-! ## Shared predicates -/

/-- Exactly one of {videoPath, error} is set, in the combination the status
prescribes: completed with a video path and no error, or failed with an error
and no video path. -/
def terminalFieldsOk (j : Job) : Prop :=
  (j.status = "completed" ∧ j.video_path ≠ none ∧ j.error = none) ∨
  (j.status = "failed" ∧ j.video_path = none ∧ j.error ≠ none)

/-- A non-terminal snapshot: neither videoPath nor error is set. -/
def nonTerminalClean (j : Job) : Prop :=
  isTerminal j.status = false ∧ j.video_path = none ∧ j.error = none

/-- Progress discipline along a trace of job snapshots: every value is at
most 100 (values are naturals, so at least 0), later snapshots never have
smaller progress, and once a snapshot is terminal every later snapshot keeps
its progress value. -/
def progressOk (trace : List Job) : Prop :=
  (∀ j ∈ trace, j.progress ≤ 100) ∧
  trace.Pairwise (fun a b => a.progress ≤ b.progress ∧
    (isTerminal a.status = true → a.progress = b.progress))

/-! ## Claims -/

/-- C5: the claim says the cleanup step runs and completes without raising on
every run of `render_video`, including runs where sanitization rejects the
script.  Evaluating the code at such a run shows the opposite: with the
script `import os`, sanitization raises before `temp_py` is assigned, the
`finally` block raises `UnboundLocalError` on `temp_py.exists()`, the media
tree is not removed (the leftover file under `TEMP_DIR/media` survives), and
the cleanup never completes.  (The idempotence half of the claim is not the
failing part: `rmtreeMedia` ignores errors and the unlink is guarded by an
existence check.) -/
theorem C5_cleanup_eval :
    (render_video
        { fs0 := ["/tmp/manim_videos/media/leftover.mp4"], rendererFiles := [],
          duration := 1, returncode := 0, stderr := "" }
        "jobC" "import os").job.status = "failed" ∧
    (render_video
        { fs0 := ["/tmp/manim_videos/media/leftover.mp4"], rendererFiles := [],
          duration := 1, returncode := 0, stderr := "" }
        "jobC" "import os").cleanupRan = false ∧
    (render_video
        { fs0 := ["/tmp/manim_videos/media/leftover.mp4"], rendererFiles := [],
          duration := 1, returncode := 0, stderr := "" }
        "jobC" "import os").cleanupRaised = true ∧
    (render_video
        { fs0 := ["/tmp/manim_videos/media/leftover.mp4"], rendererFiles := [],
          duration := 1, returncode := 0, stderr := "" }
        "jobC" "import os").fsAfter = ["/tmp/manim_videos/media/leftover.mp4"] := by
  decide

/-- C7: the claim says scripts containing the dynamic-execution call token
`exec(` are rejected with a forbidden-keyword error and spawn no subprocess.
Evaluating the code: `exec` sits only in `forbidden_imports` (checked as the
substrings `import exec` / `from exec`), the call-token denylist is only
`open( / file( / input( / raw_input(`, so the script `exec(user_code)`
passes `sanitize_code` unchanged and both creation paths reach their
subprocess invocation with it. -/
theorem C7_exec_eval :
    sanitize_code "exec(user_code)" = Except.ok "exec(user_code)" ∧
    containsStr "exec(user_code)" "exec(" = true ∧
    (render_video
        { fs0 := [], rendererFiles := [], duration := 1, returncode := 0, stderr := "" }
        "jobD" "exec(user_code)").spawned = true ∧
    ((create_video_script
        { fs0 := [], rendererFiles := [], manimPathExists := false,
          duration := 1, returncode := 0, stderr := "" }
        [] "jobE" "exec(user_code)" "solution" "medium_quality" "mp4").2).spawned = true := by
  decide

/-- C8: for a job identifier absent from the registry, every read endpoint
(status, full record, download, stream, video fetch) and the delete endpoint
answers 404, and the registry (and filesystem) are left unchanged. -/
theorem C8_unknown_id (r : Registry) (fs : FS) (id : String)
    (h : lookupJob r id = none) :
    get_video_status r id = Except.error 404 ∧
    get_job_status r id = Except.error 404 ∧
    download_video r fs id = Except.error 404 ∧
    stream_video r fs id = Except.error 404 ∧
    get_video r fs id = Except.error 404 ∧
    delete_video r fs id = (Except.error 404, r, fs) := by
  refine ⟨?_, ?_, ?_, ?_, ?_, ?_⟩ <;>
    simp [get_video_status, get_job_status, download_video, stream_video,
          get_video, delete_video, h]

/-- C8 witness: a registry holding one other job, queried with an id that was
never created. -/
theorem C8_unknown_id_witness :
    lookupJob [("other", newJob "other")] "ghost" = none ∧
    get_video_status [("other", newJob "other")] "ghost" = Except.error 404 := by
  exact ⟨by decide, (C8_unknown_id [("other", newJob "other")] [] "ghost" (by decide)).1⟩

/-- C9: the claim says every `GET /health` response contains status
(degraded exactly when the renderer is unavailable), manim_installed,
manim_version, temp_dir and active_jobs.  Counterexample: with the renderer
absent (the version probe raises), the route table serves the first
registered `/health` handler, whose body has status "healthy" (not
"degraded") and none of the other claimed fields. -/
theorem C9_counterexample :
    serveHealth
      { manimPathExists := false, versionRaises := true,
        versionReturncode := 1, versionStdout := "" } [] = some health_check_v1 ∧
    health_check_v1.status = "healthy" ∧
    health_check_v1.manim_installed = none ∧
    health_check_v1.manim_version = none ∧
    health_check_v1.temp_dir = none ∧
    health_check_v1.active_jobs = none ∧
    manimInstalled
      { manimPathExists := false, versionRaises := true,
        versionReturncode := 1, versionStdout := "" } = false := by
  decide

/-- C9 amended: `GET /health` is always served by the first registered
handler, a constant body {status: "healthy", service, version} with none of
manim_installed/manim_version/temp_dir/active_jobs; the second handler —
which would report those fields, with status degraded exactly when the
renderer probe fails — is shadowed by the duplicate route registration and
never serves a request. -/
theorem C9_amended (env : HealthEnv) (r : Registry) :
    serveHealth env r = some health_check_v1 ∧
    health_check_v1.status = "healthy" ∧
    health_check_v1.service = some "manim-video-generator" ∧
    health_check_v1.manim_installed = none ∧
    health_check_v1.manim_version = none ∧
    health_check_v1.temp_dir = none ∧
    health_check_v1.active_jobs = none ∧
    (health_check_v2 env r).status = (if manimInstalled env then "healthy" else "degraded") ∧
    (health_check_v2 env r).manim_installed = some (manimInstalled env) ∧
    (health_check_v2 env r).manim_version =
      some (if manimInstalled env then env.versionStdout else "Not installed") ∧
    (health_check_v2 env r).temp_dir = some TEMP_DIR ∧
    (health_check_v2 env r).active_jobs = some r.length := by
  refine ⟨?_, ?_, ?_, ?_, ?_, ?_, ?_, ?_, ?_, ?_, ?_, ?_⟩ <;>
    simp [serveHealth, health_routes, health_check_v1, health_check_v2]

/-- Any script containing the substring `import os` trips the first entry of
`forbidden_imports`, so `sanitize_code` rejects it with exactly that
message. -/
lemma sanitize_import_os (code : String) (h : containsStr code "import os" = true) :
    sanitize_code code = Except.error "Forbidden import: os" := by
  have hp : (fun f => containsStr code ("import " ++ f) || containsStr code ("from " ++ f))
      "os" = true := by
    show (containsStr code ("import " ++ "os") || containsStr code ("from " ++ "os")) = true
    rw [(by decide : ("import " ++ "os" : String) = "import os"), h, Bool.true_or]
  have hfind :
      List.find? (fun f => containsStr code ("import " ++ f) || containsStr code ("from " ++ f))
        ["os", "sys", "subprocess", "eval", "exec", "__import__"] = some "os" :=
    @List.find?_cons_of_pos String
      (fun f => containsStr code ("import " ++ f) || containsStr code ("from " ++ f)) "os"
      ["sys", "subprocess", "eval", "exec", "__import__"] hp
  unfold sanitize_code forbidden_imports
  rw [hfind]
  rfl

/-- In every branch of `generate_manim_video` the subprocess invocation is
reached. -/
lemma gen_spawned (env : GenEnv) (jid title quality fmt : String) :
    (generate_manim_video env jid title quality fmt).spawned = true := by
  unfold generate_manim_video
  dsimp only
  split
  · rfl
  · split <;> rfl

/-- C1: the claim says both creation endpoints reject `import os` scripts via
sanitization before any subprocess is spawned.  Counterexample: the
`/create-video` endpoint never calls `sanitize_code`; with the script
`import os` — which the sanitizer rejects — its background routine still
reaches the subprocess invocation. -/
theorem C1_counterexample :
    sanitize_code "import os" = Except.error "Forbidden import: os" ∧
    ((create_video_script
        { fs0 := [], rendererFiles := [], manimPathExists := false,
          duration := 1, returncode := 0, stderr := "" }
        [] "jobB" "import os" "solution" "medium_quality" "mp4").2).spawned = true := by
  decide

/-- C1 amended: on the `/api/video/create` path (`render_video`), any script
containing `import os` is rejected by sanitization, the job fails with the
sanitizer's message, and no subprocess is spawned for it; the `/create-video`
path performs no sanitization and reaches its subprocess invocation for every
submitted script. -/
theorem C1_amended :
    (∀ (env : RenderEnv) (jid code : String), containsStr code "import os" = true →
      (render_video env jid code).spawned = false ∧
      (render_video env jid code).job.status = "failed" ∧
      (render_video env jid code).job.error = some "Forbidden import: os") ∧
    (∀ (env : GenEnv) (r : Registry) (jid script title quality fmt : String),
      ((create_video_script env r jid script title quality fmt).2).spawned = true) := by
  constructor
  · intro env jid code h
    have hs := sanitize_import_os code h
    unfold render_video
    rw [hs]
    exact ⟨rfl, rfl, rfl⟩
  · intro env r jid script title quality fmt
    exact gen_spawned env jid title quality fmt

/-- C1 witness: the amended theorem applied to the script `import os` on the
`render_video` path. -/
theorem C1_witness :
    containsStr "import os" "import os" = true ∧
    (render_video
        { fs0 := [], rendererFiles := [], duration := 1, returncode := 0, stderr := "" }
        "jobA" "import os").spawned = false :=
  ⟨by decide,
   (C1_amended.1
      { fs0 := [], rendererFiles := [], duration := 1, returncode := 0, stderr := "" }
      "jobA" "import os" (by decide)).1⟩

/-- C4: the claim says every renderer invocation by an orchestration routine
waits at most the fixed 300-second budget.  Counterexample: the
`/create-video` routine calls `subprocess.run` with no `timeout=` argument;
with a child taking 301 seconds the routine waits all 301 seconds and the
job shows no timeout error. -/
theorem C4_counterexample :
    (generate_manim_video
        { fs0 := [], rendererFiles := [], manimPathExists := false,
          duration := 301, returncode := 0, stderr := "" }
        "jobI" "solution" "medium_quality" "mp4").waitSeconds = 301 ∧
    ¬((generate_manim_video
        { fs0 := [], rendererFiles := [], manimPathExists := false,
          duration := 301, returncode := 0, stderr := "" }
        "jobI" "solution" "medium_quality" "mp4").waitSeconds ≤ renderTimeout) ∧
    (generate_manim_video
        { fs0 := [], rendererFiles := [], manimPathExists := false,
          duration := 301, returncode := 0, stderr := "" }
        "jobI" "solution" "medium_quality" "mp4").job.error ≠
      some "Rendering timeout (5 minutes exceeded)" := by
  decide

/-- C4 amended: `render_video` waits on the child at most 300 seconds and,
when a sanitization-passing render exceeds that budget, marks the job failed
with the timeout-specific message and returns control at the 300-second
bound; `generate_manim_video`, by contrast, waits the child's full duration
with no bound. -/
theorem C4_amended :
    (∀ (env : RenderEnv) (jid code : String),
      (render_video env jid code).waitSeconds ≤ renderTimeout ∧
      (sanitize_code code = Except.ok code → renderTimeout < env.duration →
        (render_video env jid code).job.status = "failed" ∧
        (render_video env jid code).job.error = some "Rendering timeout (5 minutes exceeded)" ∧
        (render_video env jid code).waitSeconds = renderTimeout)) ∧
    (∀ (env : GenEnv) (jid title quality fmt : String),
      (generate_manim_video env jid title quality fmt).waitSeconds = env.duration) := by
  constructor
  · intro env jid code
    cases hs : sanitize_code code with
    | error msg =>
      constructor
      · unfold render_video
        rw [hs]
        exact Nat.zero_le _
      · intro hok
        exact absurd hok (by simp)
    | ok sc =>
      constructor
      · unfold render_video
        rw [hs]
        dsimp only
        split
        · exact Nat.le_refl _
        · rename_i hnot
          have hle : env.duration ≤ renderTimeout := Nat.le_of_not_lt hnot
          split
          · exact hle
          · split <;> exact hle
      · intro hok htime
        unfold render_video
        rw [hs]
        dsimp only
        rw [if_pos htime]
        exact ⟨rfl, rfl, rfl⟩
  · intro env jid title quality fmt
    unfold generate_manim_video
    dsimp only
    split
    · rfl
    · split <;> rfl

/-- C4 witness: the amended theorem applied to a 301-second render of a
sanitizer-passing script. -/
theorem C4_witness :
    sanitize_code "pass" = Except.ok "pass" ∧
    renderTimeout < 301 ∧
    (render_video
        { fs0 := [], rendererFiles := [], duration := 301, returncode := 0, stderr := "" }
        "jobH" "pass").job.error = some "Rendering timeout (5 minutes exceeded)" :=
  ⟨by decide, by decide,
   ((C4_amended.1
       { fs0 := [], rendererFiles := [], duration := 301, returncode := 0, stderr := "" }
       "jobH" "pass").2 (by decide) (by decide)).2.1⟩

/-- C2: after either orchestration routine finishes, the job's status is
terminal and exactly one of {videoPath, error} is set, in the combination the
status prescribes; and every observable state of the run (the trace records
the states at the routine's suspension points, the only points another
coroutine of the single-threaded event loop can read the registry) is either
the final terminal state or a non-terminal state with neither field set. -/
theorem C2_lifecycle :
    (∀ (env : RenderEnv) (jid code : String),
      isTerminal (render_video env jid code).job.status = true ∧
      terminalFieldsOk (render_video env jid code).job ∧
      (render_video env jid code).trace.getLast? = some (render_video env jid code).job ∧
      ∀ j ∈ (render_video env jid code).trace,
        nonTerminalClean j ∨ j = (render_video env jid code).job) ∧
    (∀ (env : GenEnv) (jid title quality fmt : String),
      isTerminal (generate_manim_video env jid title quality fmt).job.status = true ∧
      terminalFieldsOk (generate_manim_video env jid title quality fmt).job ∧
      (generate_manim_video env jid title quality fmt).trace.getLast? =
        some (generate_manim_video env jid title quality fmt).job ∧
      ∀ j ∈ (generate_manim_video env jid title quality fmt).trace,
        nonTerminalClean j ∨ j = (generate_manim_video env jid title quality fmt).job) := by
  constructor
  · intro env jid code
    unfold render_video
    cases hs : sanitize_code code with
    | error msg =>
      refine ⟨rfl, Or.inr ⟨rfl, rfl, by simp⟩, rfl, ?_⟩
      intro j hj
      simp only [List.mem_cons, List.not_mem_nil, or_false] at hj
      rcases hj with rfl | rfl
      · exact Or.inl ⟨rfl, rfl, rfl⟩
      · exact Or.inr rfl
    | ok sc =>
      dsimp only
      split
      · refine ⟨rfl, Or.inr ⟨rfl, rfl, by simp⟩, rfl, ?_⟩
        intro j hj
        simp only [List.mem_cons, List.not_mem_nil, or_false] at hj
        rcases hj with rfl | rfl | rfl
        · exact Or.inl ⟨rfl, rfl, rfl⟩
        · exact Or.inl ⟨rfl, rfl, rfl⟩
        · exact Or.inr rfl
      · split
        · refine ⟨rfl, Or.inr ⟨rfl, rfl, by simp⟩, rfl, ?_⟩
          intro j hj
          simp only [List.mem_cons, List.not_mem_nil, or_false] at hj
          rcases hj with rfl | rfl | rfl
          · exact Or.inl ⟨rfl, rfl, rfl⟩
          · exact Or.inl ⟨rfl, rfl, rfl⟩
          · exact Or.inr rfl
        · split
          · refine ⟨rfl, Or.inr ⟨rfl, rfl, by simp⟩, rfl, ?_⟩
            intro j hj
            simp only [List.mem_cons, List.not_mem_nil, or_false] at hj
            rcases hj with rfl | rfl | rfl
            · exact Or.inl ⟨rfl, rfl, rfl⟩
            · exact Or.inl ⟨rfl, rfl, rfl⟩
            · exact Or.inr rfl
          · refine ⟨rfl, Or.inl ⟨rfl, by simp, rfl⟩, rfl, ?_⟩
            intro j hj
            simp only [List.mem_cons, List.not_mem_nil, or_false] at hj
            rcases hj with rfl | rfl | rfl
            · exact Or.inl ⟨rfl, rfl, rfl⟩
            · exact Or.inl ⟨rfl, rfl, rfl⟩
            · exact Or.inr rfl
  · intro env jid title quality fmt
    unfold generate_manim_video
    dsimp only
    split
    · refine ⟨rfl, Or.inr ⟨rfl, rfl, by simp⟩, rfl, ?_⟩
      intro j hj
      simp only [List.mem_cons, List.not_mem_nil, or_false] at hj
      rcases hj with rfl | rfl
      · exact Or.inl ⟨rfl, rfl, rfl⟩
      · exact Or.inr rfl
    · split
      · refine ⟨rfl, Or.inr ⟨rfl, rfl, by simp⟩, rfl, ?_⟩
        intro j hj
        simp only [List.mem_cons, List.not_mem_nil, or_false] at hj
        rcases hj with rfl | rfl
        · exact Or.inl ⟨rfl, rfl, rfl⟩
        · exact Or.inr rfl
      · refine ⟨rfl, Or.inl ⟨rfl, by simp, rfl⟩, rfl, ?_⟩
        intro j hj
        simp only [List.mem_cons, List.not_mem_nil, or_false] at hj
        rcases hj with rfl | rfl
        · exact Or.inl ⟨rfl, rfl, rfl⟩
        · exact Or.inr rfl

/-- C6: along every observable trace of either routine, progress stays within
0–100 (values are naturals, hence at least 0), never decreases, and once a
snapshot is terminal every later snapshot carries the same progress value —
a terminal job's progress is frozen at its last value. -/
theorem C6_progress :
    (∀ (env : RenderEnv) (jid code : String),
      progressOk (render_video env jid code).trace) ∧
    (∀ (env : GenEnv) (jid title quality fmt : String),
      progressOk (generate_manim_video env jid title quality fmt).trace) := by
  constructor
  · intro env jid code
    unfold render_video
    cases hs : sanitize_code code with
    | error msg =>
      constructor
      · intro j hj
        simp only [List.mem_cons, List.not_mem_nil, or_false] at hj
        rcases hj with rfl | rfl <;> simp [newJob]
      · simp [List.pairwise_cons, newJob, isTerminal]
    | ok sc =>
      dsimp only
      split
      · constructor
        · intro j hj
          simp only [List.mem_cons, List.not_mem_nil, or_false] at hj
          rcases hj with rfl | rfl | rfl <;> simp [newJob]
        · simp [List.pairwise_cons, newJob, isTerminal]
      · split
        · constructor
          · intro j hj
            simp only [List.mem_cons, List.not_mem_nil, or_false] at hj
            rcases hj with rfl | rfl | rfl <;> simp [newJob]
          · simp [List.pairwise_cons, newJob, isTerminal]
        · split
          · constructor
            · intro j hj
              simp only [List.mem_cons, List.not_mem_nil, or_false] at hj
              rcases hj with rfl | rfl | rfl <;> simp [newJob]
            · simp [List.pairwise_cons, newJob, isTerminal]
          · constructor
            · intro j hj
              simp only [List.mem_cons, List.not_mem_nil, or_false] at hj
              rcases hj with rfl | rfl | rfl <;> simp [newJob]
            · simp [List.pairwise_cons, newJob, isTerminal]
  · intro env jid title quality fmt
    unfold generate_manim_video
    dsimp only
    split
    · constructor
      · intro j hj
        simp only [List.mem_cons, List.not_mem_nil, or_false] at hj
        rcases hj with rfl | rfl <;> simp [newJob]
      · simp [List.pairwise_cons, newJob, isTerminal]
    · split
      · constructor
        · intro j hj
          simp only [List.mem_cons, List.not_mem_nil, or_false] at hj
          rcases hj with rfl | rfl <;> simp [newJob]
        · simp [List.pairwise_cons, newJob, isTerminal]
      · constructor
        · intro j hj
          simp only [List.mem_cons, List.not_mem_nil, or_false] at hj
          rcases hj with rfl | rfl <;> simp [newJob]
        · simp [List.pairwise_cons, newJob, isTerminal]

/-- A candidate directory whose glob is non-empty necessarily exists (one of
its direct children is a file under it). -/
lemma globMp4_dirExists (fs : FS) (d : String) (h : globMp4 fs d ≠ []) :
    dirExists fs d = true := by
  obtain ⟨p, hp⟩ := List.exists_mem_of_ne_nil _ h
  have hmem := List.mem_filter.mp hp
  have hpred := hmem.2
  have hchild : directChild d p = true := by
    simp only [Bool.and_eq_true] at hpred
    exact hpred.1
  have hunder : isUnder d p = true := by
    unfold directChild at hchild
    simp only [Bool.and_eq_true] at hchild
    exact hchild.1
  exact List.any_eq_true.mpr ⟨p, hmem.1, hunder⟩

/-- The probing loop returns the glob of the first candidate that yields a
match, skipping all earlier candidates (existing or not) that yield none. -/
lemma findVideoFiles_first (fs : FS) (pre : List String) (d : String) (post : List String)
    (hpre : ∀ d' ∈ pre, globMp4 fs d' = []) (hd : globMp4 fs d ≠ []) :
    findVideoFiles fs (pre ++ d :: post) = globMp4 fs d := by
  induction pre with
  | nil =>
    simp only [List.nil_append, findVideoFiles]
    rw [globMp4_dirExists fs d hd]
    simp [List.isEmpty_iff, hd]
  | cons a t ih =>
    have ha : globMp4 fs a = [] := hpre a (List.mem_cons_self a t)
    have ht : ∀ d' ∈ t, globMp4 fs d' = [] :=
      fun d' h' => hpre d' (List.mem_cons_of_mem a h')
    simp only [List.cons_append, findVideoFiles]
    split
    · rw [ha]
      simp only [List.isEmpty_nil, if_true]
      exact ih ht
    · exact ih ht

/-- When no candidate yields a match the probing loop returns the empty
list. -/
lemma findVideoFiles_none (fs : FS) (dirs : List String)
    (h : ∀ d ∈ dirs, globMp4 fs d = []) : findVideoFiles fs dirs = [] := by
  induction dirs with
  | nil => rfl
  | cons a t ih =>
    have ha : globMp4 fs a = [] := h a (List.mem_cons_self a t)
    have ht : ∀ d ∈ t, globMp4 fs d = [] :=
      fun d hd => h d (List.mem_cons_of_mem a hd)
    simp only [findVideoFiles]
    split
    · rw [ha]
      simp only [List.isEmpty_nil, if_true]
      exact ih ht
    · exact ih ht

/-- C3: the claim says that when no candidate directory yields a match but a
file with the expected extension exists under the search root, the recursive
fallback of the locator finds and returns it.  Counterexample: in
`render_video` the recursive scan (lines 201-204) only logs; with an `.mp4`
nested under the root but outside every candidate directory, the job fails
with "No video file generated" instead of returning that file. -/
theorem C3_counterexample :
    (render_video
        { fs0 := ["/tmp/manim_videos/media/nested/deep/x.mp4"], rendererFiles := [],
          duration := 10, returncode := 0, stderr := "" }
        "alpha" "print(1)").job.status = "failed" ∧
    (render_video
        { fs0 := ["/tmp/manim_videos/media/nested/deep/x.mp4"], rendererFiles := [],
          duration := 10, returncode := 0, stderr := "" }
        "alpha" "print(1)").job.error = some "No video file generated" ∧
    (render_video
        { fs0 := ["/tmp/manim_videos/media/nested/deep/x.mp4"], rendererFiles := [],
          duration := 10, returncode := 0, stderr := "" }
        "alpha" "print(1)").job.video_path = none ∧
    List.filter (fun p => isUnder TEMP_DIR p && endsStr p ".mp4")
        ["/tmp/manim_videos/media/nested/deep/x.mp4"] =
      ["/tmp/manim_videos/media/nested/deep/x.mp4"] := by
  decide

/-- C3 amended: the candidate probing holds as claimed — the first match of
the first candidate yielding one is returned, and an empty probe gives the
empty list — but only `generate_manim_video` has a functioning recursive
fallback over the root; in `render_video` a run whose probe comes up empty
fails with "No video file generated" regardless of what else exists under
the root (its recursive scan only logs). -/
theorem C3_amended :
    (∀ (fs : FS) (pre : List String) (d : String) (post : List String),
      (∀ d' ∈ pre, globMp4 fs d' = []) → globMp4 fs d ≠ [] →
      findVideoFiles fs (pre ++ d :: post) = globMp4 fs d) ∧
    (∀ (fs : FS) (dirs : List String),
      (∀ d ∈ dirs, globMp4 fs d = []) → findVideoFiles fs dirs = []) ∧
    (∀ (env : RenderEnv) (jid code : String),
      sanitize_code code = Except.ok code →
      env.duration ≤ renderTimeout →
      env.returncode = 0 →
      findVideoFiles (env.fs0 ++ [TEMP_DIR ++ "/" ++ jid ++ ".py"] ++ env.rendererFiles)
          (possible_dirs jid) = [] →
      (render_video env jid code).job.status = "failed" ∧
      (render_video env jid code).job.error = some "No video file generated") ∧
    (∀ (env : GenEnv) (jid title quality fmt : String),
      env.returncode = 0 →
      List.filter (fun p => isUnder TEMP_DIR p && baseName p == "SolutionVideo." ++ fmt)
          (env.fs0 ++ [scriptPath title jid] ++ env.rendererFiles) = [] →
      (List.filter (fun p => isUnder TEMP_DIR p && endsStr p ("." ++ fmt))
            (env.fs0 ++ [scriptPath title jid] ++ env.rendererFiles) = [] →
        (generate_manim_video env jid title quality fmt).job.status = "failed" ∧
        (generate_manim_video env jid title quality fmt).job.error =
          some "Video file not found after generation") ∧
      (∀ (v : String) (rest : List String),
        List.filter (fun p => isUnder TEMP_DIR p && endsStr p ("." ++ fmt))
            (env.fs0 ++ [scriptPath title jid] ++ env.rendererFiles) = v :: rest →
        (generate_manim_video env jid title quality fmt).job.status = "completed" ∧
        (generate_manim_video env jid title quality fmt).job.video_path = some v)) := by
  refine ⟨findVideoFiles_first, findVideoFiles_none, ?_, ?_⟩
  · intro env jid code hok hdur hret hfv
    unfold render_video
    rw [hok]
    dsimp only
    rw [if_neg (Nat.not_lt.mpr hdur)]
    rw [hret]
    simp only [bne_self_eq_false, Bool.false_eq_true, if_false]
    rw [hfv]
    exact ⟨rfl, rfl⟩
  · intro env jid title quality fmt hret hprim
    unfold generate_manim_video
    dsimp only
    rw [hret]
    simp only [bne_self_eq_false, Bool.false_eq_true, if_false]
    rw [hprim]
    simp only [List.isEmpty_nil, if_true]
    constructor
    · intro hfb
      rw [hfb]
      exact ⟨rfl, rfl⟩
    · intro v rest hfb
      rw [hfb]
      exact ⟨rfl, rfl⟩

/-- C3 witness: the spec's own scenario — only the 8-character-prefix
candidate contains a file — instantiating the first-match component of the
amended theorem. -/
theorem C3_witness :
    findVideoFiles ["/tmp/manim_videos/media/videos/abcdefgh/480p15/x.mp4"]
        (possible_dirs "abcdefghij") =
      ["/tmp/manim_videos/media/videos/abcdefgh/480p15/x.mp4"] := by
  have h := C3_amended.1 ["/tmp/manim_videos/media/videos/abcdefgh/480p15/x.mp4"]
      ["/tmp/manim_videos/media/videos/abcdefghij/480p15",
       "/tmp/manim_videos/media/videos/abcdefghij/720p30",
       "/tmp/manim_videos/media/videos/abcdefghij/1080p60"]
      "/tmp/manim_videos/media/videos/abcdefgh/480p15" [] (by decide) (by decide)
  have e : possible_dirs "abcdefghij" =
      ["/tmp/manim_videos/media/videos/abcdefghij/480p15",
       "/tmp/manim_videos/media/videos/abcdefghij/720p30",
       "/tmp/manim_videos/media/videos/abcdefghij/1080p60"] ++
        "/tmp/manim_videos/media/videos/abcdefgh/480p15" :: [] := by decide
  rw [e]
  exact h.trans (by decide)

/-- Nothing under the media tree survives `rmtreeMedia`. -/
lemma mem_rmtreeMedia (fs : FS) (p : String) (h : p ∈ rmtreeMedia fs) :
    underMedia p = false := by
  have hpred := (List.mem_filter.mp h).2
  simpa using hpred

/-- Overwriting job `id2`'s record leaves the lookup of any other id
unchanged. -/
lemma lookup_setJob_ne (r : Registry) (id id2 : String) (j : Job) (h : ¬ id = id2) :
    lookupJob (setJob r id2 j) id = lookupJob r id := by
  induction r with
  | nil => rfl
  | cons e t ih =>
    unfold setJob at ih ⊢
    simp only [List.map_cons]
    by_cases h2 : (e.1 == id2) = true
    · have hid : (e.1 == id) = false := by
        rw [beq_iff_eq.mp h2]
        exact beq_eq_false_iff_ne.mpr (fun hh => h hh.symm)
      rw [if_pos h2]
      unfold lookupJob
      dsimp only
      rw [hid]
      simp only [Bool.false_eq_true, if_false]
      exact ih
    · rw [if_neg h2]
      unfold lookupJob
      by_cases h1 : (e.1 == id) = true
      · rw [h1]
        simp
      · have h1' : (e.1 == id) = false := by simpa using h1
        rw [h1']
        simp only [Bool.false_eq_true, if_false]
        exact ih

/-- Concrete scenario for the C10 counterexample: a `/create-video` job whose
artifact the renderer wrote under the media tree. -/
def c10GenEnv : GenEnv :=
  { fs0 := [], rendererFiles := ["/tmp/manim_videos/media/videos/s/480p15/SolutionVideo.mp4"],
    manimPathExists := true, duration := 5, returncode := 0, stderr := "" }

/-- The backing file of the completed `/create-video` job in the C10
counterexample. -/
def c10Artifact : String := "/tmp/manim_videos/media/videos/s/480p15/SolutionVideo.mp4"

/-- The completed `/create-video` run of the C10 counterexample. -/
def c10Gen : GenResult := generate_manim_video c10GenEnv "jobF" "solution" "medium_quality" "mp4"

/-- A subsequent `/api/video/create` run whose script is rejected by
sanitization, over the filesystem the `/create-video` job left behind. -/
def c10Render : RenderResult :=
  render_video
    { fs0 := c10Gen.fsAfter, rendererFiles := [], duration := 1, returncode := 0, stderr := "" }
    "jobG" "import os"

/-- C10: the claim says every `/api/video/create` job that finishes (success
or failure) deletes the backing file of every previously completed
`/create-video` job.  Counterexample: a `/api/video/create` run whose script
fails sanitization finishes failed, yet its cleanup crashes on the unbound
scratch-file local before the media-tree removal, so the completed
`/create-video` job's backing file under `TEMP_DIR/media` survives. -/
theorem C10_counterexample :
    c10Gen.job.status = "completed" ∧
    c10Gen.job.video_path = some c10Artifact ∧
    underMedia c10Artifact = true ∧
    isTerminal c10Render.job.status = true ∧
    c10Render.fsAfter.contains c10Artifact = true := by
  decide

/-- C10 amended: a job completed via `/create-video` has `videoPath` equal to
the path of the file found under the temp root, left in place (never moved
out); every `/api/video/create` run that passes sanitization removes the
entire `TEMP_DIR/media` tree in its cleanup — deleting any such backing file
that lies under that tree — while a sanitization-rejected run's cleanup
crashes first and deletes nothing; and a `/api/video/create` run only ever
rewrites its own registry entry, so the completed `/create-video` job's
record (status and dangling `videoPath`) is untouched. -/
theorem C10_amended :
    (∀ (env : GenEnv) (jid title quality fmt : String),
      (generate_manim_video env jid title quality fmt).job.status = "completed" →
      ∃ p, (generate_manim_video env jid title quality fmt).job.video_path = some p ∧
        p ∈ (generate_manim_video env jid title quality fmt).fsAfter ∧
        isUnder TEMP_DIR p = true) ∧
    (∀ (env : RenderEnv) (jid code : String),
      sanitize_code code = Except.ok code →
      ∀ p, underMedia p = true → p ∉ (render_video env jid code).fsAfter) ∧
    (∀ (env : RenderEnv) (jid code msg : String),
      sanitize_code code = Except.error msg →
      (render_video env jid code).fsAfter = env.fs0) ∧
    (∀ (env : RenderEnv) (r : Registry) (jid jid2 code : String),
      ¬ jid = jid2 →
      lookupJob (create_video_api env r jid2 code).1 jid =
        lookupJob (r ++ [(jid2, newJob jid2)]) jid) := by
  refine ⟨?_, ?_, ?_, ?_⟩
  · intro env jid title quality fmt
    unfold generate_manim_video
    dsimp only
    split
    · intro hc
      simp at hc
    · split
      · intro hc
        simp at hc
      · rename_i v rest heq
        intro _
        have hv : v ∈ (if (List.filter
            (fun p => isUnder TEMP_DIR p && baseName p == "SolutionVideo." ++ fmt)
            (env.fs0 ++ [scriptPath title jid] ++ env.rendererFiles)).isEmpty = true then
              List.filter (fun p => isUnder TEMP_DIR p && endsStr p ("." ++ fmt))
                (env.fs0 ++ [scriptPath title jid] ++ env.rendererFiles)
            else
              List.filter
                (fun p => isUnder TEMP_DIR p && baseName p == "SolutionVideo." ++ fmt)
                (env.fs0 ++ [scriptPath title jid] ++ env.rendererFiles)) := by
          rw [heq]
          exact List.mem_cons_self v rest
        refine ⟨v, rfl, ?_, ?_⟩
        · split at hv <;> exact (List.mem_filter.mp hv).1
        · split at hv <;>
            · have hpred := (List.mem_filter.mp hv).2
              simp only [Bool.and_eq_true] at hpred
              exact hpred.1
  · intro env jid code hok p hup hp
    unfold render_video at hp
    rw [hok] at hp
    dsimp only at hp
    split at hp
    · exact absurd (mem_rmtreeMedia _ p hp) (by simp [hup])
    · split at hp
      · exact absurd (mem_rmtreeMedia _ p hp) (by simp [hup])
      · split at hp
        · exact absurd (mem_rmtreeMedia _ p hp) (by simp [hup])
        · exact absurd (mem_rmtreeMedia _ p hp) (by simp [hup])
  · intro env jid code msg hs
    unfold render_video
    rw [hs]
  · intro env r jid jid2 code h
    unfold create_video_api
    dsimp only
    exact lookup_setJob_ne (r ++ [(jid2, newJob jid2)]) jid jid2 _ h

/-- C10 witness: the amended theorem applied to a completed `/create-video`
job, a sanitization-passing and a sanitization-rejected `/api/video/create`
run, and two distinct job ids. -/
theorem C10_witness :
    (∃ p, (generate_manim_video
        { fs0 := [], rendererFiles := ["/tmp/manim_videos/media/videos/t/480p15/SolutionVideo.mp4"],
          manimPathExists := true, duration := 5, returncode := 0, stderr := "" }
        "jobJ" "solution" "medium_quality" "mp4").job.video_path = some p ∧
      p ∈ (generate_manim_video
        { fs0 := [], rendererFiles := ["/tmp/manim_videos/media/videos/t/480p15/SolutionVideo.mp4"],
          manimPathExists := true, duration := 5, returncode := 0, stderr := "" }
        "jobJ" "solution" "medium_quality" "mp4").fsAfter ∧
      isUnder TEMP_DIR p = true) ∧
    "/tmp/manim_videos/media/y.mp4" ∉
      (render_video
        { fs0 := ["/tmp/manim_videos/media/y.mp4"], rendererFiles := [],
          duration := 1, returncode := 0, stderr := "" }
        "jobK" "x = 1").fsAfter ∧
    (render_video
        { fs0 := ["/tmp/manim_videos/media/y.mp4"], rendererFiles := [],
          duration := 1, returncode := 0, stderr := "" }
        "jobL" "import os").fsAfter = ["/tmp/manim_videos/media/y.mp4"] ∧
    lookupJob (create_video_api
        { fs0 := [], rendererFiles := [], duration := 1, returncode := 0, stderr := "" }
        [("jobM", newJob "jobM")] "jobN" "x = 1").1 "jobM" =
      lookupJob ([("jobM", newJob "jobM")] ++ [("jobN", newJob "jobN")]) "jobM" :=
  ⟨C10_amended.1
      { fs0 := [], rendererFiles := ["/tmp/manim_videos/media/videos/t/480p15/SolutionVideo.mp4"],
        manimPathExists := true, duration := 5, returncode := 0, stderr := "" }
      "jobJ" "solution" "medium_quality" "mp4" (by decide),
   C10_amended.2.1
      { fs0 := ["/tmp/manim_videos/media/y.mp4"], rendererFiles := [],
        duration := 1, returncode := 0, stderr := "" }
      "jobK" "x = 1" (by decide) "/tmp/manim_videos/media/y.mp4" (by decide),
   C10_amended.2.2.1
      { fs0 := ["/tmp/manim_videos/media/y.mp4"], rendererFiles := [],
        duration := 1, returncode := 0, stderr := "" }
      "jobL" "import os" "Forbidden import: os" (by decide),
   C10_amended.2.2.2
      { fs0 := [], rendererFiles := [], duration := 1, returncode := 0, stderr := "" }
      [("jobM", newJob "jobM")] "jobM" "jobN" "x = 1" (by decide)⟩

end ManimService
